import Mathlib

/-!
Shallow embedding of the CampusPool backend (campuspool-backend/src/routes):
the ride-request router (`routes/requests.js`), the rides router
(`routes/rides.js`) and the admin router (`routes/admin.js`).  Each HTTP
handler becomes a pure function from a database snapshot (lists of rows) and
the authenticated actor to either an error (HTTP status code plus message)
or the updated snapshot.  SQL row lookups by primary key become `List.find?`;
row updates become `List.map` guarded on the key; inserts append to the list.
-/

namespace CampusPool

/-- A row of the `users` table.  The columns written by `routes/auth.js` are
id, email, password_hash, name, role, created_at.  The fields
`is_admin` and `verification_status` are modelled from the spec's data model
(the schema file `src/database/schema.js` is not among the provided sources);
none of the embedded handlers ever reads them, which is exactly what several
claims are about. -/
structure User where
  id : String
  email : String
  name : String
  role : String
  is_admin : Bool
  verification_status : String
  deriving DecidableEq

/-- A row of the `rides` table, with the columns the routers read and write.
Seat counts are integers (SQL integer arithmetic: `available_seats - 1` may
go negative if nothing guards it); `estimated_cost` is a rational standing
for the numeric value. -/
structure Ride where
  id : String
  driver_id : String
  source : String
  destination : String
  departure_time : String
  total_seats : Int
  available_seats : Int
  estimated_cost : ℚ
  status : String
  deriving DecidableEq

/-- A row of the `ride_requests` table.  The `pin` column comes from the
spec's data model (4-digit code, nullable); the insert in
`routes/requests.js` sets only id, ride_id, rider_id and status, and the
accept handler updates only status and updated_at, so `pin` is `none` unless
something else writes it. -/
structure RideRequest where
  id : String
  ride_id : String
  rider_id : String
  status : String
  pin : Option Nat
  deriving DecidableEq

/-- The database snapshot: the three tables the embedded routes touch. -/
structure DB where
  users : List User
  rides : List Ride
  ride_requests : List RideRequest
  deriving DecidableEq

/-- An HTTP error response: status code and the `message` field of the JSON
body. -/
structure ApiErr where
  status : Nat
  message : String
  deriving DecidableEq

/-- `SELECT * FROM users WHERE id = $1` (first row). -/
def findUser (st : DB) (uid : String) : Option User :=
  st.users.find? (fun u => u.id == uid)

/-- `SELECT * FROM rides WHERE id = $1` (first row). -/
def findRide (st : DB) (rid : String) : Option Ride :=
  st.rides.find? (fun r => r.id == rid)

/-- `SELECT * FROM ride_requests WHERE id = $1` (first row). -/
def findRequest (st : DB) (qid : String) : Option RideRequest :=
  st.ride_requests.find? (fun q => q.id == qid)

/-- JavaScript falsiness of an optional string body field: absent or `''`. -/
def jsFalsyStr : Option String → Bool
  | none => true
  | some s => s == ""

/-- JavaScript falsiness of an optional integer body field: absent or `0`. -/
def jsFalsyInt : Option Int → Bool
  | none => true
  | some n => n == 0

/-- Embeds `router.patch('/:id/accept')` of `routes/requests.js`
(lines 111-148): look the request up (404 if absent), look its ride up
(a missing ride row makes the JS handler throw on `ride.rows[0].driver_id`
and answer 500 from the catch block), check that the authenticated user is
the ride's driver (403 otherwise), then unconditionally set the request's
status to `accepted` and decrement the ride's `available_seats` by one.
There is no check of the request's current status and no check that
`available_seats > 0`. -/
def acceptRequest (st : DB) (userId : String) (reqId : String) :
    Except ApiErr DB :=
  match findRequest st reqId with
  | none => .error ⟨404, "Request not found"⟩
  | some rideReq =>
    match findRide st rideReq.ride_id with
    | none => .error ⟨500, "Server error"⟩
    | some ride =>
      if ride.driver_id ≠ userId then
        .error ⟨403, "Not authorized"⟩
      else
        .ok { st with
          ride_requests := st.ride_requests.map (fun q =>
            if q.id == reqId then { q with status := "accepted" } else q),
          rides := st.rides.map (fun r =>
            if r.id == rideReq.ride_id then
              { r with available_seats := r.available_seats - 1 }
            else r) }

/-- Embeds `router.patch('/:id/reject')` of `routes/requests.js`
(lines 151-182): same lookups and ownership check as accept, then set the
request's status to `rejected`.  No seat effect and, again, no check of the
request's current status. -/
def rejectRequest (st : DB) (userId : String) (reqId : String) :
    Except ApiErr DB :=
  match findRequest st reqId with
  | none => .error ⟨404, "Request not found"⟩
  | some rideReq =>
    match findRide st rideReq.ride_id with
    | none => .error ⟨500, "Server error"⟩
    | some ride =>
      if ride.driver_id ≠ userId then
        .error ⟨403, "Not authorized"⟩
      else
        .ok { st with
          ride_requests := st.ride_requests.map (fun q =>
            if q.id == reqId then { q with status := "rejected" } else q) }

/-- Embeds `router.post('/')` of `routes/requests.js` (lines 52-108): only
riders may call it (403), the body must carry a ride id (400), the ride must
exist (404) and have `available_seats > 0` (400), and no prior request of
ANY status may exist for this (ride_id, rider_id) pair (409 — the duplicate
query does not filter on status, so a rejected request also blocks).  On
success a new row is inserted with status `'pending'`; the ride row is not
touched.  `newId` stands for the generated uuid. -/
def createRequest (st : DB) (user : User) (rideId? : Option String)
    (newId : String) : Except ApiErr DB :=
  if user.role ≠ "rider" then
    .error ⟨403, "Only riders can request rides"⟩
  else
    match rideId? with
    | none => .error ⟨400, "Ride ID is required"⟩
    | some rideId =>
      if rideId = "" then .error ⟨400, "Ride ID is required"⟩
      else
        match findRide st rideId with
        | none => .error ⟨404, "Ride not found"⟩
        | some ride =>
          if ride.available_seats ≤ 0 then
            .error ⟨400, "No available seats"⟩
          else if 0 < (st.ride_requests.filter (fun q =>
              q.ride_id == rideId && q.rider_id == user.id)).length then
            .error ⟨409, "You already requested this ride"⟩
          else
            .ok { st with ride_requests :=
              st.ride_requests ++ [⟨newId, rideId, user.id, "pending", none⟩] }

/-- The request body of `POST /api/rides`. -/
structure RideBody where
  source : Option String
  destination : Option String
  departureTime : Option String
  totalSeats : Option Int
  estimatedCost : Option ℚ
  deriving DecidableEq

/-- Modelled from the spec: the default of the `status` column of `rides`.
The schema file (`src/database/schema.js`) is not among the provided
sources; the spec states that a created ride has `status = posted`, and the
list endpoint in `routes/rides.js` filters on `status = 'posted'`. -/
def defaultRideStatus : String := "posted"

/-- Embeds `router.post('/')` of `routes/rides.js` (lines 99-144): only
drivers may call it (403 — note: no check of any verification status), all
body fields must be present and truthy (400; `totalSeats = 0` is falsy),
`totalSeats ≥ 1` and `estimatedCost ≥ 0` (400), and on success a ride row is
inserted with `available_seats = totalSeats` and the schema's default
status. -/
def createRide (st : DB) (user : User) (body : RideBody) (newId : String) :
    Except ApiErr DB :=
  if user.role ≠ "driver" then
    .error ⟨403, "Only drivers can post rides"⟩
  else if jsFalsyStr body.source || jsFalsyStr body.destination ||
      jsFalsyStr body.departureTime || jsFalsyInt body.totalSeats ||
      body.estimatedCost.isNone then
    .error ⟨400, "All fields are required"⟩
  else
    match body.source, body.destination, body.departureTime,
        body.totalSeats, body.estimatedCost with
    | some src, some dst, some dep, some seats, some cost =>
      if seats < 1 ∨ cost < 0 then
        .error ⟨400, "Invalid seat count or cost"⟩
      else
        .ok { st with rides := st.rides ++
          [⟨newId, user.id, src, dst, dep, seats, seats, cost,
            defaultRideStatus⟩] }
    | _, _, _, _, _ => .error ⟨400, "All fields are required"⟩

/-- Embeds `router.patch('/:id/status')` of `routes/rides.js`
(lines 147-178): the ride must exist (404) and belong to the caller (403);
the requested status must be one of `posted`, `in_progress`, `completed`
(400); the ride's status is then set to it with NO look at the ride's prior
status. -/
def updateRideStatus (st : DB) (userId : String) (rideId : String)
    (status : String) : Except ApiErr DB :=
  match findRide st rideId with
  | none => .error ⟨404, "Ride not found"⟩
  | some ride =>
    if ride.driver_id ≠ userId then
      .error ⟨403, "Not authorized to update this ride"⟩
    else if status ∉ (["posted", "in_progress", "completed"] : List String) then
      .error ⟨400, "Invalid status"⟩
    else
      .ok { st with rides := st.rides.map (fun r =>
        if r.id == rideId then { r with status := status } else r) }

/-- Embeds the `costPerRider` computation of `routes/rides.js` (lines 45-47
and 87-89), as the numeric value before decimal formatting:
`available_seats > 0 ? cost / (total_seats - available_seats || 1) : cost`.
The JavaScript `x || 1` turns a zero divisor into 1. -/
def costPerRider (total_seats available_seats : Int) (estimated_cost : ℚ) :
    ℚ :=
  if 0 < available_seats then
    estimated_cost /
      (if total_seats - available_seats = 0 then 1
       else ((total_seats - available_seats : Int) : ℚ))
  else estimated_cost

/-- The cost-per-rider formula exactly as the spec words it:
`estimated_cost / max(seats_taken, 1)` with
`seats_taken = total_seats - available_seats`, with no special case for
`available_seats = 0`.  Kept beside `costPerRider` to compare the two. -/
def spec_costPerRider (total_seats available_seats : Int)
    (estimated_cost : ℚ) : ℚ :=
  estimated_cost / ((max (total_seats - available_seats) 1 : Int) : ℚ)

/-- The projection of a `users` row that `GET /api/admin/users` returns for
every user: note that it includes the email. -/
structure AdminUserView where
  id : String
  email : String
  name : String
  role : String
  deriving DecidableEq

/-- Embeds `router.get('/users')` of `routes/admin.js` (lines 8-28): behind
`authenticateToken` only — the handler never reads `req.user`, so ANY
authenticated actor receives every user's id, email, name and role. -/
def adminGetUsers (st : DB) (_actor : User) :
    Except ApiErr (List AdminUserView) :=
  .ok (st.users.map (fun u => ⟨u.id, u.email, u.name, u.role⟩))

/-- Embeds `router.get('/rides')` of `routes/admin.js` (lines 31-63): every
ride joined with its driver row (the inner join drops rides whose driver row
is missing), for any authenticated actor. -/
def adminGetRides (st : DB) (_actor : User) : Except ApiErr (List Ride) :=
  .ok (st.rides.filter (fun r => (findUser st r.driver_id).isSome))

/-- The body of `GET /api/admin/stats`. -/
structure AdminStats where
  totalUsers : Nat
  totalRides : Nat
  totalRequests : Nat
  deriving DecidableEq

/-- Embeds `router.get('/stats')` of `routes/admin.js` (lines 66-84): row
counts of the three tables, for any authenticated actor. -/
def adminGetStats (st : DB) (_actor : User) : Except ApiErr AdminStats :=
  .ok ⟨st.users.length, st.rides.length, st.ride_requests.length⟩

/-! Concrete fixtures used by the counterexamples and witnesses below. -/

/-- A verified driver. -/
def uDriver : User := ⟨"d1", "d1@college.edu", "Dana", "driver", false, "verified"⟩

/-- A verified rider (not an admin). -/
def uRider : User := ⟨"r1", "r1@college.edu", "Ria", "rider", false, "verified"⟩

/-- A second rider. -/
def uRider2 : User := ⟨"r2", "r2@college.edu", "Rob", "rider", false, "verified"⟩

/-- An UNVERIFIED driver. -/
def uDriverUnverified : User :=
  ⟨"d2", "d2@college.edu", "Dev", "driver", false, "unverified"⟩

/-- A ride of `uDriver` whose seats are already exhausted. -/
def rideNoSeats : Ride := ⟨"ride0", "d1", "A", "B", "t0", 1, 0, 10, "posted"⟩

/-- A pending request of `uRider` for `rideNoSeats`. -/
def reqPendingNoSeats : RideRequest := ⟨"q0", "ride0", "r1", "pending", none⟩

/-- State for C1: the ride has 0 available seats and a pending request. -/
def stNoSeats : DB := ⟨[uDriver, uRider], [rideNoSeats], [reqPendingNoSeats]⟩

/-- A ride of `uDriver` with one seat left out of two. -/
def rideOneSeat : Ride := ⟨"ride1", "d1", "A", "B", "t1", 2, 1, 10, "posted"⟩

/-- A request of `uRider` for `rideOneSeat` that is ALREADY accepted. -/
def reqAlreadyAccepted : RideRequest := ⟨"q1", "ride1", "r1", "accepted", none⟩

/-- State for C3: the request already left the start status. -/
def stAlreadyAccepted : DB :=
  ⟨[uDriver, uRider], [rideOneSeat], [reqAlreadyAccepted]⟩

/-- A fresh ride of `uDriver` with both seats free. -/
def rideFresh : Ride := ⟨"ride2", "d1", "A", "B", "t2", 2, 2, 10, "posted"⟩

/-- A pending request of `uRider` for `rideFresh`. -/
def reqPendingFresh : RideRequest := ⟨"q2", "ride2", "r1", "pending", none⟩

/-- State for C2 and C9: a pending request on a fresh ride. -/
def stPendingFresh : DB := ⟨[uDriver, uRider], [rideFresh], [reqPendingFresh]⟩

/-- A rejected request of `uRider` for `rideFresh`. -/
def reqRejectedFresh : RideRequest := ⟨"q3", "ride2", "r1", "rejected", none⟩

/-- State for C4: the rider's only request for the ride was rejected. -/
def stRejectedFresh : DB := ⟨[uDriver, uRider], [rideFresh], [reqRejectedFresh]⟩

/-- A well-formed ride-creation body. -/
def bodyOk : RideBody := ⟨some "A", some "B", some "t5", some 3, some 30⟩

/-- State for C5: just the unverified driver. -/
def stUnverifiedOnly : DB := ⟨[uDriverUnverified], [], []⟩

/-- State for C6: a fresh ride and no requests. -/
def stFreshNoReq : DB := ⟨[uDriver, uRider], [rideFresh], []⟩

/-!  Helper lemmas about keyed list updates, shared by several claims. -/

/-- Updating the row with key `k` through `List.map` commutes with `find?`
on that key, as long as the update keeps the key. -/
theorem find?_map_update {α : Type} (idOf : α → String) (k : String)
    (f : α → α) (hf : ∀ x, idOf (f x) = idOf x) (l : List α) (a : α)
    (h : l.find? (fun x => idOf x == k) = some a) :
    (l.map (fun x => if idOf x == k then f x else x)).find?
      (fun x => idOf x == k) = some (f a) := by
  induction l with
  | nil => simp at h
  | cons b t ih =>
    by_cases hb : (idOf b == k) = true
    · rw [List.find?_cons_of_pos (p := fun x => idOf x == k) _ hb] at h
      cases h
      simp only [List.map_cons, hb, if_true]
      exact List.find?_cons_of_pos (p := fun x => idOf x == k) _
        (by simpa [hf] using hb)
    · rw [List.find?_cons_of_neg (p := fun x => idOf x == k) _
        (by simpa using hb)] at h
      simp only [List.map_cons, hb, if_false]
      rw [List.find?_cons_of_neg (p := fun x => idOf x == k) _
        (by simpa using hb)]
      exact ih h

/-- C1: the seat invariant fails in the code.  Accepting a pending request
for a ride whose `available_seats` is already 0 does not fail: it succeeds
and drives `available_seats` to -1, because the accept handler decrements
unconditionally, with no seat re-check. -/
theorem c1_accept_at_zero_seats_goes_negative :
    rideNoSeats.available_seats = 0 ∧
    acceptRequest stNoSeats "d1" "q0" =
      .ok ⟨[uDriver, uRider],
        [{ rideNoSeats with available_seats := -1 }],
        [{ reqPendingNoSeats with status := "accepted" }]⟩ := ⟨rfl, rfl⟩

/-- C3: neither accept nor reject looks at the request's current status.
On a request that is ALREADY `accepted`, a second accept succeeds and
decrements the ride's seats again, and a reject succeeds and overwrites the
status with `rejected` — where the claim demands a ConflictError and an
unchanged state in both cases. -/
theorem c3_accept_reject_ignore_prior_status :
    reqAlreadyAccepted.status = "accepted" ∧
    acceptRequest stAlreadyAccepted "d1" "q1" =
      .ok ⟨[uDriver, uRider],
        [{ rideOneSeat with available_seats := 0 }],
        [reqAlreadyAccepted]⟩ ∧
    rejectRequest stAlreadyAccepted "d1" "q1" =
      .ok ⟨[uDriver, uRider],
        [rideOneSeat],
        [{ reqAlreadyAccepted with status := "rejected" }]⟩ := ⟨rfl, rfl, rfl⟩

/-- C2 counterexample: the driver accepts an existing pending request; the
status is set and the seat count drops, but the accepted request's `pin`
field is still `none` — no 4-digit PIN is generated or stored anywhere. -/
theorem c2_accept_stores_no_pin_cex :
    acceptRequest stPendingFresh "d1" "q2" =
      .ok ⟨[uDriver, uRider],
        [{ rideFresh with available_seats := 1 }],
        [{ reqPendingFresh with status := "accepted" }]⟩ ∧
    ({ reqPendingFresh with status := "accepted" } : RideRequest).pin =
      none := ⟨rfl, rfl⟩

/-- C10: the admin read endpoints perform no admin-role check: every actor
with a valid bearer token — in particular one with `is_admin = false` —
receives the full user list including every user's email, the full ride
list, and the dashboard stats. -/
theorem c10_admin_endpoints_no_admin_check (st : DB) (actor : User)
    (_h : actor.is_admin = false) :
    (∃ views, adminGetUsers st actor = .ok views ∧
      ∀ u ∈ st.users,
        (⟨u.id, u.email, u.name, u.role⟩ : AdminUserView) ∈ views) ∧
    (∃ rideList, adminGetRides st actor = .ok rideList) ∧
    (∃ stats, adminGetStats st actor = .ok stats) := by
  refine ⟨⟨_, rfl, ?_⟩, ⟨_, rfl⟩, ⟨_, rfl⟩⟩
  intro u hu
  exact List.mem_map_of_mem _ hu

/-- Witness for C10 at a concrete state and a concrete non-admin rider. -/
theorem c10_admin_endpoints_no_admin_check_witness :
    (∃ views, adminGetUsers stPendingFresh uRider = .ok views ∧
      ∀ u ∈ stPendingFresh.users,
        (⟨u.id, u.email, u.name, u.role⟩ : AdminUserView) ∈ views) ∧
    (∃ rideList, adminGetRides stPendingFresh uRider = .ok rideList) ∧
    (∃ stats, adminGetStats stPendingFresh uRider = .ok stats) :=
  c10_admin_endpoints_no_admin_check stPendingFresh uRider rfl

/-- C9: each embedded mutation — accept, reject, ride status update —
invoked by an authenticated actor who is not the ride's owning driver
answers the 403 error; the handlers return either an error or the next
state, so an error means no write at all: request status, ride status and
available_seats are untouched. -/
theorem c9_non_owner_gets_403_no_write (st : DB) (uid reqId rid s : String)
    (rr : RideRequest) (r r2 : Ride)
    (hq : findRequest st reqId = some rr)
    (hr : findRide st rr.ride_id = some r)
    (hd : r.driver_id ≠ uid)
    (hr2 : findRide st rid = some r2)
    (hd2 : r2.driver_id ≠ uid) :
    acceptRequest st uid reqId = .error ⟨403, "Not authorized"⟩ ∧
    rejectRequest st uid reqId = .error ⟨403, "Not authorized"⟩ ∧
    updateRideStatus st uid rid s =
      .error ⟨403, "Not authorized to update this ride"⟩ := by
  refine ⟨?_, ?_, ?_⟩
  · simp [acceptRequest, hq, hr, hd]
  · simp [rejectRequest, hq, hr, hd]
  · simp [updateRideStatus, hr2, hd2]

/-- Witness for C9: the rider `r1` (not the driver) tries all three
mutations on the concrete state and gets the 403 each time. -/
theorem c9_non_owner_gets_403_no_write_witness :
    acceptRequest stPendingFresh "r1" "q2" = .error ⟨403, "Not authorized"⟩ ∧
    rejectRequest stPendingFresh "r1" "q2" = .error ⟨403, "Not authorized"⟩ ∧
    updateRideStatus stPendingFresh "r1" "ride2" "completed" =
      .error ⟨403, "Not authorized to update this ride"⟩ :=
  c9_non_owner_gets_403_no_write stPendingFresh "r1" "q2" "ride2" "completed"
    reqPendingFresh rideFresh rideFresh rfl rfl (by decide) rfl (by decide)

/-- C2 (amended): when the ride's driver accepts an existing request, the
request's status becomes `accepted` and the ride's `available_seats` drops
by exactly 1, but NO PIN is generated or stored: the pin column of every
request, the accepted one included, is exactly what it was before the
call. -/
theorem c2_accept_sets_status_decrements_stores_no_pin
    (st : DB) (uid qid : String) (rr : RideRequest) (r : Ride)
    (hq : findRequest st qid = some rr)
    (hr : findRide st rr.ride_id = some r)
    (hd : r.driver_id = uid) :
    ∃ st2, acceptRequest st uid qid = .ok st2 ∧
      findRequest st2 qid = some { rr with status := "accepted" } ∧
      findRide st2 rr.ride_id =
        some { r with available_seats := r.available_seats - 1 } ∧
      st2.ride_requests.map (fun q => q.pin) =
        st.ride_requests.map (fun q => q.pin) := by
  have e : acceptRequest st uid qid = .ok
      { st with
        ride_requests := st.ride_requests.map (fun q =>
          if q.id == qid then { q with status := "accepted" } else q),
        rides := st.rides.map (fun x =>
          if x.id == rr.ride_id then
            { x with available_seats := x.available_seats - 1 }
          else x) } := by
    simp [acceptRequest, hq, hr, hd]
  refine ⟨_, e, ?_, ?_, ?_⟩
  · simp only [findRequest]
    exact find?_map_update (fun q => q.id) qid
      (fun q => { q with status := "accepted" }) (fun _ => rfl) _ rr
      (by simpa [findRequest] using hq)
  · simp only [findRide]
    exact find?_map_update (fun x => x.id) rr.ride_id
      (fun x => { x with available_seats := x.available_seats - 1 })
      (fun _ => rfl) _ r (by simpa [findRide] using hr)
  · simp only [List.map_map]
    apply List.map_congr_left
    intro q _
    by_cases hid : (q.id == qid) = true <;> simp [Function.comp, hid]

/-- Witness for C2 at the concrete pending request: the driver accepts, the
status flips, one seat is taken and no pin appears anywhere. -/
theorem c2_accept_sets_status_decrements_stores_no_pin_witness :
    ∃ st2, acceptRequest stPendingFresh "d1" "q2" = .ok st2 ∧
      findRequest st2 "q2" =
        some { reqPendingFresh with status := "accepted" } ∧
      findRide st2 reqPendingFresh.ride_id =
        some { rideFresh with
          available_seats := rideFresh.available_seats - 1 } ∧
      st2.ride_requests.map (fun q => q.pin) =
        stPendingFresh.ride_requests.map (fun q => q.pin) :=
  c2_accept_sets_status_decrements_stores_no_pin stPendingFresh "d1" "q2"
    reqPendingFresh rideFresh rfl rfl rfl

/-- C4 counterexample: the rider's only request for the ride was REJECTED
and the ride has seats left, yet a fresh request attempt gets the 409
Conflict — the duplicate query never filters on status, so a rejected
request blocks re-requesting, where the claim says the rider may request
again. -/
theorem c4_rejected_request_still_blocks_cex :
    reqRejectedFresh.status = "rejected" ∧
    createRequest stRejectedFresh uRider (some "ride2") "q9" =
      .error ⟨409, "You already requested this ride"⟩ := ⟨rfl, rfl⟩

/-- C4 (amended): for a rider, a present ride id, an existing ride with
seats left, createRequest fails with the 409 Conflict iff ANY request — of
any status, a rejected one included — already exists for the
(ride_id, rider_id) pair. -/
theorem c4_conflict_iff_any_prior_request (st : DB) (u : User)
    (rid newId : String) (r : Ride)
    (hrole : u.role = "rider") (hne : rid ≠ "")
    (hr : findRide st rid = some r) (hs : 0 < r.available_seats) :
    createRequest st u (some rid) newId =
        .error ⟨409, "You already requested this ride"⟩ ↔
      ∃ q ∈ st.ride_requests, q.ride_id = rid ∧ q.rider_id = u.id := by
  have hns : ¬ r.available_seats ≤ 0 := by omega
  have e : createRequest st u (some rid) newId =
      if 0 < (st.ride_requests.filter (fun q =>
          q.ride_id == rid && q.rider_id == u.id)).length then
        .error ⟨409, "You already requested this ride"⟩
      else
        .ok { st with ride_requests :=
          st.ride_requests ++ [⟨newId, rid, u.id, "pending", none⟩] } := by
    simp [createRequest, hrole, hne, hr, hns]
  have key : 0 < (st.ride_requests.filter (fun q =>
      q.ride_id == rid && q.rider_id == u.id)).length ↔
      ∃ q ∈ st.ride_requests, q.ride_id = rid ∧ q.rider_id = u.id := by
    rw [List.length_pos_iff_exists_mem]
    constructor
    · rintro ⟨q, hmem⟩
      rw [List.mem_filter] at hmem
      exact ⟨q, hmem.1, by simpa using hmem.2⟩
    · rintro ⟨q, hmem, h1, h2⟩
      exact ⟨q, List.mem_filter.2 ⟨hmem, by simp [h1, h2]⟩⟩
  rw [e]
  by_cases hdup : 0 < (st.ride_requests.filter (fun q =>
      q.ride_id == rid && q.rider_id == u.id)).length
  · rw [if_pos hdup]
    exact ⟨fun _ => key.1 hdup, fun _ => rfl⟩
  · rw [if_neg hdup]
    constructor
    · intro hcontra
      exact absurd hcontra (by simp)
    · intro hex
      exact absurd (key.2 hex) hdup

/-- Witness for C4 at the concrete state whose only matching request is the
rejected one: the 409 side of the iff is inhabited there. -/
theorem c4_conflict_iff_any_prior_request_witness :
    createRequest stRejectedFresh uRider (some "ride2") "q9" =
        .error ⟨409, "You already requested this ride"⟩ ↔
      ∃ q ∈ stRejectedFresh.ride_requests,
        q.ride_id = "ride2" ∧ q.rider_id = uRider.id :=
  c4_conflict_iff_any_prior_request stRejectedFresh uRider "ride2" "q9"
    rideFresh rfl (by decide) rfl (by decide)

/-- C5 counterexample: a driver whose verification_status is `unverified`
posts a ride and the code accepts it — there is no verification check at
all, where the claim demands an AuthorizationError. -/
theorem c5_unverified_driver_creates_ride_cex :
    uDriverUnverified.verification_status ≠ "verified" ∧
    createRide stUnverifiedOnly uDriverUnverified bodyOk "ride5" =
      .ok ⟨[uDriverUnverified],
        [⟨"ride5", "d2", "A", "B", "t5", 3, 3, 30, "posted"⟩], []⟩ :=
  ⟨by decide, rfl⟩

/-- C5 (amended): createRide checks only the role, never any verification
status.  For ANY user whose role is `driver` — whatever the
verification_status — with present non-empty fields, seats ≥ 1 and
cost ≥ 0, it succeeds and the new ride has available_seats = total_seats
and the default `posted` status; a non-driver gets the 403
AuthorizationError; a driver with out-of-range seats or cost gets the 400
ValidationError. -/
theorem c5_createRide_checks_role_not_verification (st : DB) (u : User)
    (src dst dep : String) (seats : Int) (cost : ℚ) (newId : String) :
    (u.role = "driver" → src ≠ "" → dst ≠ "" → dep ≠ "" →
      1 ≤ seats → 0 ≤ cost →
      createRide st u ⟨some src, some dst, some dep, some seats, some cost⟩
          newId =
        .ok { st with rides := st.rides ++
          [⟨newId, u.id, src, dst, dep, seats, seats, cost,
            defaultRideStatus⟩] }) ∧
    (u.role ≠ "driver" →
      createRide st u ⟨some src, some dst, some dep, some seats, some cost⟩
          newId = .error ⟨403, "Only drivers can post rides"⟩) ∧
    (u.role = "driver" → src ≠ "" → dst ≠ "" → dep ≠ "" → seats ≠ 0 →
      (seats < 1 ∨ cost < 0) →
      createRide st u ⟨some src, some dst, some dep, some seats, some cost⟩
          newId = .error ⟨400, "Invalid seat count or cost"⟩) := by
  refine ⟨?_, ?_, ?_⟩
  · intro hrole hsrc hdst hdep hseats hcost
    have hs0 : seats ≠ 0 := by omega
    have hrange : ¬ (seats < 1 ∨ cost < 0) := by
      push_neg
      exact ⟨hseats, hcost⟩
    simp [createRide, jsFalsyStr, jsFalsyInt, hrole, hsrc, hdst, hdep,
      hs0, hrange]
  · intro hrole
    simp [createRide, hrole]
  · intro hrole hsrc hdst hdep hs0 hrange
    simp [createRide, jsFalsyStr, jsFalsyInt, hrole, hsrc, hdst, hdep,
      hs0, hrange]

/-- Witness for C5: the success branch applied to the concrete unverified
driver. -/
theorem c5_createRide_checks_role_not_verification_witness :
    createRide stUnverifiedOnly uDriverUnverified
        ⟨some "A", some "B", some "t5", some 3, some 30⟩ "ride5" =
      .ok { stUnverifiedOnly with rides := stUnverifiedOnly.rides ++
        [⟨"ride5", uDriverUnverified.id, "A", "B", "t5", 3, 3, 30,
          defaultRideStatus⟩] } :=
  (c5_createRide_checks_role_not_verification stUnverifiedOnly
      uDriverUnverified "A" "B" "t5" 3 30 "ride5").1
    rfl (by decide) (by decide) (by decide) (by decide) (by decide)

/-- C6 counterexample: a successful createRequest stores the literal status
`'pending'`, not `'requested'` — the spec's name for the start state does
not match the string the code writes. -/
theorem c6_initial_status_is_pending_cex :
    createRequest stFreshNoReq uRider (some "ride2") "q6" =
      .ok ⟨[uDriver, uRider], [rideFresh],
        [⟨"q6", "ride2", "r1", "pending", none⟩]⟩ ∧
    ("pending" : String) ≠ "requested" := ⟨rfl, by decide⟩

/-- C6 (amended): createRequest answers 404 when the ride is missing, 400
when its available_seats ≤ 0, and on success appends a request whose
initial status is the literal `'pending'` (the code's name for the state
machine's start state) with no pin, leaving the rides table — in
particular available_seats — untouched. -/
theorem c6_createRequest_behavior (st : DB) (u : User) (rid newId : String)
    (hrole : u.role = "rider") (hne : rid ≠ "") :
    (findRide st rid = none →
      createRequest st u (some rid) newId =
        .error ⟨404, "Ride not found"⟩) ∧
    (∀ r, findRide st rid = some r → r.available_seats ≤ 0 →
      createRequest st u (some rid) newId =
        .error ⟨400, "No available seats"⟩) ∧
    (∀ r, findRide st rid = some r → 0 < r.available_seats →
      (st.ride_requests.filter (fun q =>
        q.ride_id == rid && q.rider_id == u.id)).length = 0 →
      createRequest st u (some rid) newId =
        .ok { st with ride_requests :=
          st.ride_requests ++ [⟨newId, rid, u.id, "pending", none⟩] }) := by
  refine ⟨?_, ?_, ?_⟩
  · intro h
    simp [createRequest, hrole, hne, h]
  · intro r hr hseats
    simp [createRequest, hrole, hne, hr, hseats]
  · intro r hr hseats hdup
    have hns : ¬ r.available_seats ≤ 0 := by omega
    simp [createRequest, hrole, hne, hr, hns, hdup]

/-- Witness for C6: the success branch at the concrete fresh ride; the new
request carries status `'pending'` and the rides list is unchanged. -/
theorem c6_createRequest_behavior_witness :
    createRequest stFreshNoReq uRider (some "ride2") "q6" =
      .ok { stFreshNoReq with ride_requests :=
        stFreshNoReq.ride_requests ++
          [⟨"q6", "ride2", uRider.id, "pending", none⟩] } :=
  (c6_createRequest_behavior stFreshNoReq uRider "ride2" "q6" rfl
      (by decide)).2.2 rideFresh rfl (by decide) rfl

/-- C7 counterexample: the ride's status is `posted` — not an
active/in-progress status — yet the owning driver's update to `completed`
succeeds, where the claim says such a transition must be rejected. -/
theorem c7_complete_from_posted_succeeds_cex :
    rideFresh.status = "posted" ∧
    updateRideStatus stFreshNoReq "d1" "ride2" "completed" =
      .ok ⟨[uDriver, uRider],
        [{ rideFresh with status := "completed" }], []⟩ := ⟨rfl, rfl⟩

/-- C7 (amended): the ride status update checks only that the ride exists,
that the caller is the owning driver and that the requested status is one
of `posted`, `in_progress`, `completed`; it never looks at the ride's PRIOR
status, so any of the three — `completed` included — can be set from any
prior status. -/
theorem c7_status_update_ignores_prior_status (st : DB) (uid rid s : String)
    (r : Ride) (hr : findRide st rid = some r) (hd : r.driver_id = uid)
    (hs : s = "posted" ∨ s = "in_progress" ∨ s = "completed") :
    ∃ st2, updateRideStatus st uid rid s = .ok st2 ∧
      findRide st2 rid = some { r with status := s } := by
  have hmem : s ∈ (["posted", "in_progress", "completed"] : List String) := by
    rcases hs with h | h | h <;> simp [h]
  have e : updateRideStatus st uid rid s = .ok
      { st with rides := st.rides.map (fun x =>
        if x.id == rid then { x with status := s } else x) } := by
    simp [updateRideStatus, hr, hd, hmem]
  refine ⟨_, e, ?_⟩
  simp only [findRide]
  exact find?_map_update (fun x => x.id) rid
    (fun x => { x with status := s }) (fun _ => rfl) _ r
    (by simpa [findRide] using hr)

/-- Witness for C7: setting `completed` on a `posted` ride of the owning
driver succeeds and the stored status becomes `completed`. -/
theorem c7_status_update_ignores_prior_status_witness :
    ∃ st2, updateRideStatus stFreshNoReq "d1" "ride2" "completed" =
        .ok st2 ∧
      findRide st2 "ride2" = some { rideFresh with status := "completed" } :=
  c7_status_update_ignores_prior_status stFreshNoReq "d1" "ride2"
    "completed" rideFresh rfl rfl (Or.inr (Or.inr rfl))

/-- C8 counterexample: with total_seats = 2, available_seats = 0 and
estimated_cost = 10, the code returns the raw estimated_cost 10, while the
claim's formula `estimated_cost / max(seats_taken, 1)` gives 10 / 2 = 5. -/
theorem c8_zero_available_seats_cex :
    costPerRider 2 0 10 = 10 ∧ spec_costPerRider 2 0 10 = 5 ∧
    (10 : ℚ) ≠ 5 := by
  refine ⟨rfl, ?_, by norm_num⟩
  norm_num [spec_costPerRider]

/-- C8 (amended): the spec's formula is what the code computes only while
`available_seats > 0` (and `available_seats ≤ total_seats`); once
available_seats hits 0 the code returns the raw estimated_cost instead of
`estimated_cost / total_seats`. -/
theorem c8_costPerRider_branches (t a : Int) (c : ℚ) :
    (0 < a → a ≤ t → costPerRider t a c = spec_costPerRider t a c) ∧
    (a ≤ 0 → costPerRider t a c = c) := by
  constructor
  · intro h1 h2
    unfold costPerRider spec_costPerRider
    rw [if_pos h1]
    by_cases he : t - a = 0
    · rw [if_pos he, he]
      norm_num
    · rw [if_neg he]
      have hmax : max (t - a) 1 = t - a := by omega
      rw [hmax]
  · intro h
    unfold costPerRider
    rw [if_neg (by omega)]

/-- Witness for C8: both branches at concrete seat counts. -/
theorem c8_costPerRider_branches_witness :
    costPerRider 2 1 10 = spec_costPerRider 2 1 10 ∧
    costPerRider 2 0 10 = 10 :=
  ⟨(c8_costPerRider_branches 2 1 10).1 (by decide) (by decide),
   (c8_costPerRider_branches 2 0 10).2 (by decide)⟩

end CampusPool
